import Mathlib

/-!
Verification of the Day 18 "Duet" virtual machine (src/solvers/day18.py).

The Python source defines:
- BadDuetVM: the part-1 single-instance interpreter (registers are a dict,
  operands are raw strings resolved by fet, rcv is a terminal "recover").
- DuetVM: the part-2 instance (snd appends to the partner's queue, rcv pops
  from its own queue with a timeout; on timeout it returns True and the
  execute loop breaks; before each rcv the instance must acquire a shared
  semaphore with a short timeout, and quits if it cannot).
- DuetCoordinator: spawns two DuetVM subprocesses on the same program and
  reads their final (ip, sent, received) from pipes.

We embed those shallowly: dictionaries become association lists, Python
integers become Int (arbitrary precision, as in Python), raised exceptions
become explicit error results, and the two real-time nondeterminism points
of a DuetVM run (whether the semaphore acquire succeeded within its
timeout, and which values were available on the instance's queue before its
receive timeout fired) become explicit oracle parameters.
-/

namespace Duet

/-- Python exceptions that the day18 code can raise at runtime. -/
inductive PyErr
  | zeroDiv
  | indexErr
  | typeErr
deriving DecidableEq

/-- A decoded instruction as produced by BadDuetVM.parse: the mnemonic
(the name of the method looked up with getattr) and the raw operand
strings. -/
abbrev Instr := String × List String

abbrev Prog := List Instr

/-- The register dictionary self.regs: an association list from names to
integers. -/
abbrev Regs := List (String × Int)

/-- Lookup in the register dictionary: self.regs.get(x) without default. -/
def rget (regs : Regs) (x : String) : Option Int :=
  match regs.find? (fun p => p.fst == x) with
  | some p => some p.snd
  | none => none

/-- Dictionary update self.regs[x] = v. -/
def rset (regs : Regs) (x : String) (v : Int) : Regs :=
  match regs with
  | [] => [ (x, v) ]
  | p :: rest => if p.fst == x then (x, v) :: rest else p :: rset rest x v

/-- Value of a nonempty all-digit character list (int(...) on the digits);
none if empty or any character is not an ASCII digit. -/
def natOfDigits (cs : List Char) : Option Nat :=
  if cs.isEmpty then none
  else
    cs.foldl
      (fun acc c =>
        match acc with
        | none => none
        | some n => if c.isDigit then some (10 * n + (c.toNat - 48)) else none)
      (some 0)

/-- Python int(x) applied to a \S+ token: an optional sign followed by
digits (exotic literal forms such as digit-grouping underscores are not
modelled). none models the ValueError branch of fet. -/
def parseInt (s : String) : Option Int :=
  match s.toList with
  | [] => none
  | c :: rest =>
    if c = '-' then (natOfDigits rest).map (fun n => -(n : Int))
    else if c = '+' then (natOfDigits rest).map (fun n => (n : Int))
    else (natOfDigits (c :: rest)).map (fun n => (n : Int))

/-- BadDuetVM.fet: try int(x); on ValueError fall back to
self.regs.get(x, 0). -/
def fet (regs : Regs) (x : String) : Int :=
  match parseInt x with
  | some n => n
  | none => (rget regs x).getD 0

/-- The whitespace class \s of the Python re module (ASCII part). -/
def isPySpace (c : Char) : Bool :=
  (c == ' ') || (c == '\t') || (c == '\n') || (c == '\r')
    || (c == Char.ofNat 11) || (c == Char.ofNat 12)

/-- The seven method names of the INSTR_RX alternation. -/
def mnemonics : List String := [ "snd", "set", "add", "mul", "mod", "rcv", "jgz" ]

/-- re.match of INSTR_RX = (snd|set|add|mul|mod|rcv|jgz)\s+(\S+)(?:\s+(\S+))?
against a line (a prefix match: trailing text is ignored), followed by the
filtering of None groups in parse. No mnemonic is a prefix of another, so
the alternation is equivalent to comparing the first three characters; the
greedy \S+ runs are maximal munches because \s and \S are complements. -/
def matchLine (line : String) : Option Instr :=
  let cs := line.toList
  let m := String.mk (cs.take 3)
  if mnemonics.contains m then
    let rest := cs.drop 3
    if rest.takeWhile isPySpace = [] then none
    else
      let r1 := rest.dropWhile isPySpace
      let a1 := r1.takeWhile (fun c => ! isPySpace c)
      if a1 = [] then none
      else
        let r2 := r1.dropWhile (fun c => ! isPySpace c)
        let r3 := r2.dropWhile isPySpace
        let a2 := r3.takeWhile (fun c => ! isPySpace c)
        if r2.takeWhile isPySpace = [] ∨ a2 = [] then some ( m, [String.mk a1] )
        else some ( m, [String.mk a1, String.mk a2] )
  else none

/-- BadDuetVM.parse (also inherited by DuetVM): decode every line in order;
any line the regex does not match raises a bare AssertionError, which
carries no message and in particular no line number — modelled as a Unit
error. -/
def parse : List String → Except Unit Prog
  | [] => Except.ok []
  | l :: ls =>
    match matchLine l with
    | none => Except.error ()
    | some i =>
      match parse ls with
      | Except.error e => Except.error e
      | Except.ok p => Except.ok (i :: p)

/-- Whether parse succeeded. -/
def parseOk (lines : List String) : Bool :=
  match parse lines with
  | Except.ok _ => true
  | Except.error _ => false

/-- State of a BadDuetVM (part 1): registers, the played list, the
recovers list, and the instruction pointer. -/
structure BadVM where
  regs : Regs
  played : List Int
  recovers : List Int
  ip : Int
deriving DecidableEq

/-- BadDuetVM.__init__. -/
def badInit : BadVM := { regs := [], played := [], recovers := [], ip := 0 }

/-- Dispatch of one decoded instruction on a BadDuetVM, i.e. the call
method(self, *args). The Bool records whether the method returned a
non-None value (only rcv with a truthy operand does). Calling a method
with the wrong number of arguments raises TypeError; modulo by zero
raises ZeroDivisionError; played[-1] on an empty list raises IndexError.
Python % has the sign of the divisor, which is Int.fmod. -/
def runInstrBad (i : Instr) (s : BadVM) : Except PyErr (BadVM × Bool) :=
  match i with
  | ( "snd", [x] ) => Except.ok ({ s with played := s.played ++ [fet s.regs x] }, false)
  | ( "set", [x, y] ) => Except.ok ({ s with regs := rset s.regs x (fet s.regs y) }, false)
  | ( "add", [x, y] ) =>
    Except.ok ({ s with regs := rset s.regs x ((rget s.regs x).getD 0 + fet s.regs y) }, false)
  | ( "mul", [x, y] ) =>
    Except.ok ({ s with regs := rset s.regs x ((rget s.regs x).getD 0 * fet s.regs y) }, false)
  | ( "mod", [x, y] ) =>
    if fet s.regs y = 0 then Except.error PyErr.zeroDiv
    else Except.ok ({ s with regs := rset s.regs x (Int.fmod ((rget s.regs x).getD 0) (fet s.regs y)) }, false)
  | ( "rcv", [x] ) =>
    if fet s.regs x ≠ 0 then
      match s.played.getLast? with
      | none => Except.error PyErr.indexErr
      | some v => Except.ok ({ s with recovers := s.recovers ++ [v] }, true)
    else Except.ok (s, false)
  | ( "jgz", [x, y] ) =>
    if fet s.regs x > 0 then Except.ok ({ s with ip := s.ip + fet s.regs y - 1 }, false)
    else Except.ok (s, false)
  | _ => Except.error PyErr.typeErr

/-- One iteration of the while body of BadDuetVM.execute, assuming the
instruction pointer is in bounds: run the fetched instruction; if the
method returned a non-None value, execute returns self.recovers[0]
(some v); otherwise self.ip += 1 and the loop continues (none). -/
def badLoopBody (prog : Prog) (s : BadVM) : Except PyErr (BadVM × Option Int) :=
  match runInstrBad (prog.getD s.ip.toNat ( "", [] )) s with
  | Except.error e => Except.error e
  | Except.ok (s2, true) =>
    match s2.recovers.head? with
    | some v => Except.ok (s2, some v)
    | none => Except.error PyErr.indexErr
  | Except.ok (s2, false) => Except.ok ({ s2 with ip := s2.ip + 1 }, none)

/-- Outcome of BadDuetVM.execute. -/
inductive ExecRes
  | recovered (v : Int) (s : BadVM)
  | offEnd (s : BadVM)
  | fault (e : PyErr) (s : BadVM)
  | outOfFuel (s : BadVM)
deriving DecidableEq

/-- BadDuetVM.execute: while 0 <= self.ip < len(program), run one
instruction; an early non-None return yields recovered; leaving the
bounds returns None (offEnd); an uncaught exception is fault. The fuel
argument only bounds the number of iterations we are willing to unfold;
it is not part of the source. -/
def badExec (prog : Prog) : Nat → BadVM → ExecRes
  | 0, s => ExecRes.outOfFuel s
  | f + 1, s =>
    if 0 ≤ s.ip ∧ s.ip < (prog.length : Int) then
      match badLoopBody prog s with
      | Except.error e => ExecRes.fault e s
      | Except.ok (s2, some v) => ExecRes.recovered v s2
      | Except.ok (s2, none) => badExec prog f s2
    else ExecRes.offEnd s

/-- Result of part1 (runSingle): parse then execute on a fresh VM. -/
inductive Part1Res
  | parseErr
  | result (r : ExecRes)
deriving DecidableEq

/-- part1: program = BadDuetVM.parse(lines); vm.execute(program). A parse
failure propagates before any execution starts. -/
def part1Model (fuel : Nat) (lines : List String) : Part1Res :=
  match parse lines with
  | Except.error _ => Part1Res.parseErr
  | Except.ok prog => Part1Res.result (badExec prog fuel badInit)

/-- The recovered frequency part1 returns, when it returns one. -/
def part1Answer (fuel : Nat) (lines : List String) : Option Int :=
  match part1Model fuel lines with
  | Part1Res.result (ExecRes.recovered v _) => some v
  | _ => none

/-- State of one DuetVM instance (part 2): registers, instruction pointer,
and the sent and received logs. The instance's inbound queue is passed
around separately, as the values made available on it. -/
structure DuetState where
  regs : Regs
  ip : Int
  sent : List Int
  received : List Int
deriving DecidableEq

/-- DuetVM.__init__(self, id_): regs and logs start empty and ip at 0.
The id_ argument is accepted and, exactly as in the source, never used:
no register is seeded from it. -/
def duetVMInit (id_ : Nat) : DuetState :=
  { regs := [], ip := 0, sent := [], received := [] }

/-- Dispatch of a non-rcv instruction on a DuetVM: snd is overridden to
put the value on the partner's queue (recorded here via the sent log,
which receives exactly the same values) and set/add/mul/mod/jgz are
inherited from BadDuetVM. rcv never reaches this function: DuetVM.execute
routes it through the semaphore branch first. -/
def runInstrDuet (i : Instr) (s : DuetState) : Except PyErr DuetState :=
  match i with
  | ( "snd", [x] ) => Except.ok { s with sent := s.sent ++ [fet s.regs x] }
  | ( "set", [x, y] ) => Except.ok { s with regs := rset s.regs x (fet s.regs y) }
  | ( "add", [x, y] ) =>
    Except.ok { s with regs := rset s.regs x ((rget s.regs x).getD 0 + fet s.regs y) }
  | ( "mul", [x, y] ) =>
    Except.ok { s with regs := rset s.regs x ((rget s.regs x).getD 0 * fet s.regs y) }
  | ( "mod", [x, y] ) =>
    if fet s.regs y = 0 then Except.error PyErr.zeroDiv
    else Except.ok { s with regs := rset s.regs x (Int.fmod ((rget s.regs x).getD 0) (fet s.regs y)) }
  | ( "jgz", [x, y] ) =>
    if fet s.regs x > 0 then Except.ok { s with ip := s.ip + fet s.regs y - 1 }
    else Except.ok s
  | _ => Except.error PyErr.typeErr

/-- How one DuetVM subprocess ends: done means its execute loop exited
(normally, by a rcv timeout break, or by a semaphore-timeout QUIT break)
and the final ip/sent/received were written to the pipe; crashed means an
uncaught exception killed the process before anything was written. -/
inductive ChildRes
  | done (s : DuetState)
  | crashed (e : PyErr)
  | fuelOut (s : DuetState)
deriving DecidableEq

/-- DuetVM.execute: the while loop of one instance. The two points where
the source consults real time are made explicit parameters: locks lists,
per rcv attempt, whether self.lock.acquire(block=True, timeout=0.1)
succeeded (default true when the list runs out), and q lists the values
that arrive on this instance's own queue before its queue.get(timeout=2)
gives up — an empty q is a receive that times out, upon which rcv returns
True and the loop breaks. A rcv with a wrong operand count raises
TypeError only after the semaphore was acquired, as in the source. -/
def childExec (prog : Prog) : Nat → List Bool → DuetState → List Int → ChildRes
  | 0, _, s, _ => ChildRes.fuelOut s
  | f + 1, locks, s, q =>
    if 0 ≤ s.ip ∧ s.ip < (prog.length : Int) then
      let instr := prog.getD s.ip.toNat ( "", [] )
      if instr.fst = "rcv" then
        if locks.headD true then
          match instr.snd, q with
          | [x], [] => ChildRes.done s
          | [x], v :: q2 =>
            childExec prog f locks.tail
              { regs := rset s.regs x v, ip := s.ip + 1, sent := s.sent,
                received := s.received ++ [v] } q2
          | _, _ => ChildRes.crashed PyErr.typeErr
        else ChildRes.done s
      else
        match runInstrDuet instr s with
        | Except.error e => ChildRes.crashed e
        | Except.ok s2 => childExec prog f locks { s2 with ip := s2.ip + 1 } q
    else ChildRes.done s

/-- DuetCoordinator.run: both instances execute the same program; the
parent then does three blocking recv calls per instance. Because the
parent keeps its own copy of each pipe's send handle open, those recv
calls return only if the child reached the end of execute and sent its
results: if a child died on an uncaught exception the recv blocks
forever, which none models. -/
def coordRun (prog : Prog) (fuel : Nat) (l0 l1 : List Bool) (q0 q1 : List Int) :
    Option (DuetState × DuetState) :=
  match childExec prog fuel l0 (duetVMInit 0) q0, childExec prog fuel l1 (duetVMInit 1) q1 with
  | ChildRes.done s0, ChildRes.done s1 => some (s0, s1)
  | _, _ => none

/-- part2: run the coordinator and return len(c.vm1.sent). -/
def part2Model (prog : Prog) (fuel : Nat) (l0 l1 : List Bool) (q0 q1 : List Int) : Option Nat :=
  (coordRun prog fuel l0 l1 q0 q1).map (fun p => p.snd.sent.length)

/-- Modelled from the spec: the operand grammar of section 6, a single
lowercase register letter [a-z] or an integer literal -?[0-9]+. Used only
to compare the claimed grammar with what parse actually accepts. -/
def specOperandOk (s : String) : Bool :=
  (match s.toList with
   | [c] => c.isLower
   | _ => false)
  || (match s.toList with
      | '-' :: rest => (natOfDigits rest).isSome
      | cs => (natOfDigits cs).isSome)

/-- Modelled from the spec: per-mnemonic operand count of section 6
(snd/rcv take one operand, the rest take two). -/
def specArity (m : String) : Option Nat :=
  if m = "snd" ∨ m = "rcv" then some 1
  else if m = "set" ∨ m = "add" ∨ m = "mul" ∨ m = "mod" ∨ m = "jgz" then some 2
  else none

/-- Split a line into whitespace-separated tokens. -/
def tokensAux : List Char → List Char → List String
  | [], cur => if cur.isEmpty then [] else [String.mk cur.reverse]
  | c :: rest, cur =>
    if isPySpace c then
      if cur.isEmpty then tokensAux rest []
      else String.mk cur.reverse :: tokensAux rest []
    else tokensAux rest (c :: cur)

/-- Modelled from the spec: whether a whole line conforms to the claimed
line grammar — a known mnemonic, its exact operand count, and every
operand an integer literal or single lowercase register letter. -/
def specLineOk (line : String) : Bool :=
  match tokensAux line.toList [] with
  | [] => false
  | m :: ops =>
    match specArity m with
    | none => false
    | some k => (ops.length == k) && ops.all specOperandOk

instance {ε α : Type} [DecidableEq ε] [DecidableEq α] : DecidableEq (Except ε α) := fun x y =>
  match x, y with
  | Except.ok a, Except.ok b =>
    if h : a = b then Decidable.isTrue (by rw [h]) else Decidable.isFalse (by simp [h])
  | Except.error a, Except.error b =>
    if h : a = b then Decidable.isTrue (by rw [h]) else Decidable.isFalse (by simp [h])
  | Except.ok _, Except.error _ => Decidable.isFalse (by simp)
  | Except.error _, Except.ok _ => Decidable.isFalse (by simp)

/-- The ten lines of the worked example in the module docstring. -/
def sampleLines : List String :=
  [ "set a 1", "add a 2", "mul a a", "mod a 5", "snd a",
    "set a 0", "rcv a", "jgz a -1", "set a 1", "jgz a -2" ]

/-- Unfolding of runInstrBad at a jgz instruction. -/
theorem runInstrBad_jgz (s : BadVM) (x y : String) :
    runInstrBad ( "jgz", [x, y] ) s
      = if fet s.regs x > 0 then Except.ok ({ s with ip := s.ip + fet s.regs y - 1 }, false)
        else Except.ok (s, false) := rfl

/-- Unfolding of runInstrBad at an add instruction. -/
theorem runInstrBad_add (s : BadVM) (x y : String) :
    runInstrBad ( "add", [x, y] ) s
      = Except.ok ({ s with regs := rset s.regs x ((rget s.regs x).getD 0 + fet s.regs y) }, false) :=
  rfl

/-- Unfolding of runInstrBad at a mul instruction. -/
theorem runInstrBad_mul (s : BadVM) (x y : String) :
    runInstrBad ( "mul", [x, y] ) s
      = Except.ok ({ s with regs := rset s.regs x ((rget s.regs x).getD 0 * fet s.regs y) }, false) :=
  rfl

/-- Unfolding of runInstrBad at a mod instruction. -/
theorem runInstrBad_mod (s : BadVM) (x y : String) :
    runInstrBad ( "mod", [x, y] ) s
      = if fet s.regs y = 0 then Except.error PyErr.zeroDiv
        else Except.ok ({ s with regs := rset s.regs x (Int.fmod ((rget s.regs x).getD 0) (fet s.regs y)) }, false) :=
  rfl

/-- Unfolding of runInstrBad at a rcv instruction. -/
theorem runInstrBad_rcv (s : BadVM) (x : String) :
    runInstrBad ( "rcv", [x] ) s
      = if fet s.regs x ≠ 0 then
          match s.played.getLast? with
          | none => Except.error PyErr.indexErr
          | some v => Except.ok ({ s with recovers := s.recovers ++ [v] }, true)
        else Except.ok (s, false) := rfl

/-- Unfolding of runInstrDuet at a mod instruction. -/
theorem runInstrDuet_mod (s : DuetState) (x y : String) :
    runInstrDuet ( "mod", [x, y] ) s
      = if fet s.regs y = 0 then Except.error PyErr.zeroDiv
        else Except.ok { s with regs := rset s.regs x (Int.fmod ((rget s.regs x).getD 0) (fet s.regs y)) } :=
  rfl

/-- An instance whose current instruction is a one-operand rcv and whose
queue yields nothing exits its loop immediately with its state untouched,
whether or not the semaphore acquire succeeded: on acquire failure it
QUITs, and on a receive timeout rcv returns True and the loop breaks. -/
theorem childExec_rcv_empty (prog : Prog) (f : Nat) (locks : List Bool) (s : DuetState)
    (x : String) (h0 : 0 ≤ s.ip) (h1 : s.ip < (prog.length : Int))
    (hi : prog.getD s.ip.toNat ( "", [] ) = ( "rcv", [x] )) :
    childExec prog (f + 1) locks s [] = ChildRes.done s := by
  cases hl : locks.headD true <;>
  · simp only [childExec]
    rw [if_pos ⟨h0, h1⟩, hi]
    simp [hl]

/-- If either child process dies on an uncaught exception, the
coordinator's blocking recv on that child's pipe never returns. -/
theorem coordRun_crash (prog : Prog) (fuel : Nat) (l0 l1 : List Bool) (q0 q1 : List Int)
    (e : PyErr)
    (h : childExec prog fuel l0 (duetVMInit 0) q0 = ChildRes.crashed e ∨
         childExec prog fuel l1 (duetVMInit 1) q1 = ChildRes.crashed e) :
    coordRun prog fuel l0 l1 q0 q1 = none ∧ part2Model prog fuel l0 l1 q0 q1 = none := by
  have hc : coordRun prog fuel l0 l1 q0 q1 = none := by
    rcases h with h | h
    · simp [coordRun, h]
    · cases hl : childExec prog fuel l0 (duetVMInit 0) q0 <;> simp [coordRun, hl, h]
  exact ⟨hc, by simp [part2Model, hc]⟩

/-- Whenever parse fails it does so on the first line the instruction
regex does not match, and it succeeds exactly when every line matches. -/
theorem parseOk_iff (lines : List String) :
    parseOk lines = true ↔ ∀ l ∈ lines, (matchLine l).isSome = true := by
  induction lines with
  | nil => simp [parseOk, parse]
  | cons l ls ih =>
    cases hm : matchLine l with
    | none => simp [parseOk, parse, hm]
    | some i =>
      cases hp : parse ls with
      | error e =>
        have hok : parseOk ls = false := by simp [parseOk, hp]
        simp [parseOk, parse, hm, hp, hok] at ih ⊢
        exact ih
      | ok p =>
        have hok : parseOk ls = true := by simp [parseOk, hp]
        simp [parseOk, parse, hm, hp, hok] at ih ⊢
        exact ih

/-- C1: the coordinator constructs DuetVM(0) and DuetVM(1), but
DuetVM.__init__ ignores its id_ argument: both instances start with
PC = 0 and a register file that is empty including register p, so the
two start states are identical rather than differing in p. -/
theorem c1_instances_start_identical :
    duetVMInit 0 = duetVMInit 1 ∧
    rget (duetVMInit 0).regs "p" = none ∧
    rget (duetVMInit 1).regs "p" = none ∧
    fet (duetVMInit 0).regs "p" = fet (duetVMInit 1).regs "p" ∧
    (duetVMInit 0).ip = 0 ∧ (duetVMInit 1).ip = 0 := by
  refine ⟨rfl, rfl, rfl, rfl, rfl, rfl⟩

/-- C2 counterexample: an instance at a rcv instruction with an empty
queue does not retry on the next turn — its execute loop breaks and the
instance terminates (done), whichever way the semaphore acquire went.
This refutes the claim that the instance does not halt. -/
theorem c2_counterexample :
    childExec [ ( "rcv", [ "a" ] ) ] 5 [true] (duetVMInit 0) [] = ChildRes.done (duetVMInit 0) ∧
    childExec [ ( "rcv", [ "a" ] ) ] 5 [false] (duetVMInit 0) [] = ChildRes.done (duetVMInit 0) := by
  exact ⟨rfl, rfl⟩

/-- C2 amended: a Receive that finds no value leaves registers and PC
unchanged, but instead of retrying, the instance exits its execute loop
and terminates: either the semaphore acquire times out (QUIT) or the
receive itself times out and rcv returns True, breaking the loop. -/
theorem c2_blocked_receive_halts (prog : Prog) (f : Nat) (locks : List Bool) (s : DuetState)
    (x : String) (h0 : 0 ≤ s.ip) (h1 : s.ip < (prog.length : Int))
    (hi : prog.getD s.ip.toNat ( "", [] ) = ( "rcv", [x] )) :
    childExec prog (f + 1) locks s [] = ChildRes.done s :=
  childExec_rcv_empty prog f locks s x h0 h1 hi

/-- C2 witness: concrete instance of the amended claim. -/
theorem c2_witness :
    childExec [ ( "rcv", [ "b" ] ) ] 4 [] (duetVMInit 1) [] = ChildRes.done (duetVMInit 1) :=
  c2_blocked_receive_halts [ ( "rcv", [ "b" ] ) ] 3 [] (duetVMInit 1) "b" (by decide) (by decide)
    rfl

/-- C3 counterexample: a modulo by zero crashes the instance with an
uncaught ZeroDivisionError before it writes anything to its pipe, and
the coordinator then blocks forever on recv — the run is not reported as
Failed (no such outcome exists); it produces nothing at all. -/
theorem c3_counterexample :
    childExec [ ( "mod", [ "a", "0" ] ) ] 5 [] (duetVMInit 0) [] = ChildRes.crashed PyErr.zeroDiv ∧
    coordRun [ ( "mod", [ "a", "0" ] ) ] 5 [] [] [] [] = none ∧
    part2Model [ ( "mod", [ "a", "0" ] ) ] 5 [] [] [] [] = none := by
  exact ⟨rfl, rfl, rfl⟩

/-- C3 amended: a Modulo whose evaluated second operand is 0 raises an
uncaught ZeroDivisionError that kills only the faulting instance, and
whenever either instance dies this way the coordinator hangs forever on
its result pipe instead of halting both and reporting a distinct Failed
outcome. -/
theorem c3_mod_zero_crashes_and_run_hangs (prog : Prog) (f : Nat) (locks : List Bool)
    (s : DuetState) (q : List Int) (x y : String)
    (h0 : 0 ≤ s.ip) (h1 : s.ip < (prog.length : Int))
    (hi : prog.getD s.ip.toNat ( "", [] ) = ( "mod", [x, y] ))
    (hz : fet s.regs y = 0) :
    childExec prog (f + 1) locks s q = ChildRes.crashed PyErr.zeroDiv ∧
    ∀ (p2 : Prog) (f2 : Nat) (l0 l1 : List Bool) (q0 q1 : List Int) (e : PyErr),
      (childExec p2 f2 l0 (duetVMInit 0) q0 = ChildRes.crashed e ∨
        childExec p2 f2 l1 (duetVMInit 1) q1 = ChildRes.crashed e) →
      coordRun p2 f2 l0 l1 q0 q1 = none ∧ part2Model p2 f2 l0 l1 q0 q1 = none := by
  constructor
  · simp only [childExec]
    rw [if_pos ⟨h0, h1⟩, hi]
    simp [runInstrDuet_mod, hz]
  · exact fun p2 f2 l0 l1 q0 q1 e h => coordRun_crash p2 f2 l0 l1 q0 q1 e h

/-- C3 witness: concrete instance of the amended claim. -/
theorem c3_witness :
    childExec [ ( "mod", [ "b", "c" ] ) ] 2 [] (duetVMInit 0) [] = ChildRes.crashed PyErr.zeroDiv ∧
    coordRun [ ( "mod", [ "b", "c" ] ) ] 2 [] [] [] [] = none ∧
    part2Model [ ( "mod", [ "b", "c" ] ) ] 2 [] [] [] [] = none := by
  have h := c3_mod_zero_crashes_and_run_hangs [ ( "mod", [ "b", "c" ] ) ] 1 [] (duetVMInit 0) []
    "b" "c" (by decide) (by decide) rfl (by decide)
  exact ⟨h.1, (h.2 _ 2 [] [] [] [] PyErr.zeroDiv (Or.inl h.1)).1,
    (h.2 _ 2 [] [] [] [] PyErr.zeroDiv (Or.inl h.1)).2⟩

/-- C4 counterexample: the line snd !! violates the claimed operand
grammar (its operand is neither an integer literal nor a single
lowercase register letter), yet parse accepts it, so parsing does not
fail on every non-conforming line — and when it does fail it raises a
bare AssertionError carrying no line number. -/
theorem c4_counterexample :
    specLineOk "snd !!" = false ∧ parse [ "snd !!" ] = Except.ok [ ( "snd", [ "!!" ] ) ] := by
  exact ⟨rfl, rfl⟩

/-- C4 amended: parse fails — with an AssertionError that carries no
line information — exactly when some line fails the instruction regex
(a known mnemonic followed by whitespace and at least one arbitrary
non-whitespace operand token; operand shape and per-opcode operand count
are not validated, and trailing text is ignored); on failure execution
never starts. -/
theorem c4_parse_matches_regex_only (lines : List String) :
    (parseOk lines = true ↔ ∀ l ∈ lines, (matchLine l).isSome = true) ∧
    (parseOk lines = false → part1Model 1 lines = Part1Res.parseErr) := by
  refine ⟨parseOk_iff lines, fun h => ?_⟩
  cases hp : parse lines with
  | error e => simp [part1Model, hp]
  | ok p => simp [parseOk, hp] at h

/-- C4 witness: concrete instance of the amended claim. -/
theorem c4_witness : part1Model 1 [ "bogus" ] = Part1Res.parseErr :=
  (c4_parse_matches_regex_only [ "bogus" ]).2 (by decide)

/-- C5 counterexample: on the one-instruction program rcv a (run by both
instances, whose queues stay empty) the dual run terminates — one
instance loses the semaphore race and QUITs, the other times out on its
empty queue — but it is reported as an ordinary completed run with sent
count 0, not as a distinct Deadlocked outcome: the code produces no
deadlock report at all. -/
theorem c5_counterexample :
    coordRun [ ( "rcv", [ "a" ] ) ] 5 [true] [false] [] [] = some (duetVMInit 0, duetVMInit 1) ∧
    part2Model [ ( "rcv", [ "a" ] ) ] 5 [true] [false] [] [] = some 0 := by
  exact ⟨rfl, rfl⟩

/-- C5 amended: on the program rcv a, whatever way the semaphore races
resolve, the dual run terminates with both instances stopped at PC 0
having sent and received nothing, and part2 returns the ordinary sent
count 0; termination is by the receive/semaphore timeouts, and no
Deadlocked outcome distinct from normal completion is reported. -/
theorem c5_deadlock_terminates_unreported (f : Nat) (l0 l1 : List Bool) :
    coordRun [ ( "rcv", [ "a" ] ) ] (f + 1) l0 l1 [] [] = some (duetVMInit 0, duetVMInit 1) ∧
    part2Model [ ( "rcv", [ "a" ] ) ] (f + 1) l0 l1 [] [] = some 0 := by
  have h0 := childExec_rcv_empty [ ( "rcv", [ "a" ] ) ] f l0 (duetVMInit 0) "a"
    (by decide) (by decide) rfl
  have h1 := childExec_rcv_empty [ ( "rcv", [ "a" ] ) ] f l1 (duetVMInit 1) "a"
    (by decide) (by decide) rfl
  have hc : coordRun [ ( "rcv", [ "a" ] ) ] (f + 1) l0 l1 [] []
      = some (duetVMInit 0, duetVMInit 1) := by
    simp [coordRun, h0, h1]
  exact ⟨hc, by simp [part2Model, hc, duetVMInit]⟩

/-- C6: part1 (runSingle) on the parsed ten-line worked example recovers
4: the value of the last sound played at the first rcv executed with a
nonzero operand value. -/
theorem c6_sample_recovers_four : part1Answer 50 sampleLines = some 4 := by decide

/-- C7: executing the jgz instruction at the current PC adds
evaluate(y) to the PC when evaluate(x) > 0 (including negative backward
offsets, via ip += fet(y) - 1 followed by the loop's ip += 1) and
otherwise adds 1, changing nothing else in the machine state. -/
theorem c7_jgz_pc_update (prog : Prog) (f : Nat) (s : BadVM) (x y : String)
    (h0 : 0 ≤ s.ip) (h1 : s.ip < (prog.length : Int))
    (hi : prog.getD s.ip.toNat ( "", [] ) = ( "jgz", [x, y] )) :
    badExec prog (f + 1) s
      = badExec prog f { s with ip := s.ip + (if fet s.regs x > 0 then fet s.regs y else 1) } := by
  simp only [badExec]
  rw [if_pos ⟨h0, h1⟩]
  simp only [badLoopBody]
  rw [hi, runInstrBad_jgz]
  by_cases hx : fet s.regs x > 0
  · rw [if_pos hx, if_pos hx]
    have he : s.ip + fet s.regs y - 1 + 1 = s.ip + fet s.regs y := by omega
    simp [he]
  · rw [if_neg hx, if_neg hx]

/-- C7 witness: concrete instance of the jgz semantics. -/
theorem c7_witness :
    badExec [ ( "jgz", [ "1", "5" ] ) ] 2 badInit
      = badExec [ ( "jgz", [ "1", "5" ] ) ] 1
          { badInit with
            ip := badInit.ip + (if fet badInit.regs "1" > 0 then fet badInit.regs "5" else 1) } :=
  c7_jgz_pc_update [ ( "jgz", [ "1", "5" ] ) ] 1 badInit "1" "5" (by decide) (by decide) rfl

/-- C8: a register that was never assigned (absent from the dictionary)
evaluates to 0, both when fetched as a source operand and as the
in-place left operand of add, mul and mod, whose reads go through
regs.get(x, 0). -/
theorem c8_unset_register_defaults_zero (s : BadVM) (x y : String)
    (hn : parseInt x = none) (hr : rget s.regs x = none) :
    fet s.regs x = 0 ∧
    runInstrBad ( "add", [x, y] ) s
      = Except.ok ({ s with regs := rset s.regs x (0 + fet s.regs y) }, false) ∧
    runInstrBad ( "mul", [x, y] ) s
      = Except.ok ({ s with regs := rset s.regs x (0 * fet s.regs y) }, false) ∧
    (fet s.regs y ≠ 0 →
      runInstrBad ( "mod", [x, y] ) s
        = Except.ok ({ s with regs := rset s.regs x (Int.fmod 0 (fet s.regs y)) }, false)) := by
  have hf : fet s.regs x = 0 := by simp [fet, hn, hr]
  refine ⟨hf, ?_, ?_, fun hy => ?_⟩
  · rw [runInstrBad_add, hr]
    rfl
  · rw [runInstrBad_mul, hr]
    rfl
  · rw [runInstrBad_mod, hr, if_neg hy]
    rfl

/-- C8 witness: concrete instance at register z with operand 3. -/
theorem c8_witness :
    fet badInit.regs "z" = 0 ∧
    runInstrBad ( "add", [ "z", "3" ] ) badInit
      = Except.ok ({ badInit with regs := rset badInit.regs "z" (0 + fet badInit.regs "3") }, false) ∧
    runInstrBad ( "mul", [ "z", "3" ] ) badInit
      = Except.ok ({ badInit with regs := rset badInit.regs "z" (0 * fet badInit.regs "3") }, false) ∧
    runInstrBad ( "mod", [ "z", "3" ] ) badInit
      = Except.ok ({ badInit with regs := rset badInit.regs "z" (Int.fmod 0 (fet badInit.regs "3")) }, false) := by
  have h := c8_unset_register_defaults_zero badInit "z" "3" rfl rfl
  exact ⟨h.1, h.2.1, h.2.2.1, h.2.2.2 (by decide)⟩

/-- C9 counterexample: registers are Python integers of arbitrary
precision; the two-instruction program below leaves 2^63 — outside the
signed 64-bit range — in register a, refuting the claim that every
stored value lies within that range. -/
theorem c9_counterexample :
    parse [ "set a 9223372036854775807", "add a 1" ]
      = Except.ok [ ( "set", [ "a", "9223372036854775807" ] ), ( "add", [ "a", "1" ] ) ] ∧
    badExec [ ( "set", [ "a", "9223372036854775807" ] ), ( "add", [ "a", "1" ] ) ] 3 badInit
      = ExecRes.offEnd
          { regs := [ ( "a", (9223372036854775808 : Int) ) ], played := [], recovers := [],
            ip := 2 } ∧
    ¬ ((9223372036854775808 : Int) ≤ 2 ^ 63 - 1) := by
  exact ⟨by decide, by decide, by decide⟩

/-- C9 amended: register values are arbitrary-precision integers and
arithmetic is exact — a three-instruction program reaches exactly 2^126,
far beyond the signed 64-bit range, with no wraparound or fault. -/
theorem c9_registers_unbounded :
    badExec
        [ ( "set", [ "a", "9223372036854775807" ] ), ( "add", [ "a", "1" ] ),
          ( "mul", [ "a", "a" ] ) ] 4 badInit
      = ExecRes.offEnd
          { regs := [ ( "a", (85070591730234615865843651857942052864 : Int) ) ], played := [],
            recovers := [], ip := 3 } ∧
    (2 ^ 63 - 1 : Int) < 85070591730234615865843651857942052864 := by
  exact ⟨by decide, by decide⟩

/-- C10: in single-instance mode, a rcv whose operand evaluates to a
nonzero value while the played list is still empty reads played[-1] of
an empty list and raises an uncaught IndexError, so at least one prior
snd is an unstated precondition of the recover action and runSingle
faults without it. -/
theorem c10_recover_without_send_faults (prog : Prog) (s : BadVM) (x : String)
    (hp : s.played = []) (hi : prog.getD s.ip.toNat ( "", [] ) = ( "rcv", [x] ))
    (hx : fet s.regs x ≠ 0) :
    badLoopBody prog s = Except.error PyErr.indexErr ∧
    (0 ≤ s.ip → s.ip < (prog.length : Int) → ∀ f : Nat,
      badExec prog (f + 1) s = ExecRes.fault PyErr.indexErr s) := by
  have hb : badLoopBody prog s = Except.error PyErr.indexErr := by
    simp only [badLoopBody]
    rw [hi, runInstrBad_rcv, if_pos hx, hp]
    rfl
  refine ⟨hb, fun h0 h1 f => ?_⟩
  simp only [badExec]
  rw [if_pos ⟨h0, h1⟩, hb]

/-- C10 witness: the one-line program rcv 1 faults immediately. -/
theorem c10_witness :
    badLoopBody [ ( "rcv", [ "1" ] ) ] badInit = Except.error PyErr.indexErr ∧
    badExec [ ( "rcv", [ "1" ] ) ] 1 badInit = ExecRes.fault PyErr.indexErr badInit := by
  have h := c10_recover_without_send_faults [ ( "rcv", [ "1" ] ) ] badInit "1" rfl rfl (by decide)
  exact ⟨h.1, h.2 (by decide) (by decide) 0⟩

end Duet
